import Mathlib

/-!
Verification of `create_comparison.py`, the single utility script of this
repository.  The script opens two screenshot images from fixed paths,
composites them vertically onto a white canvas with header and caption
text, saves the result, and reports success or failure on standard output.

The embedding below models the script faithfully:
* a decoded image is its integer width and height (the only attributes the
  script consults);
* the imaging-library calls performed on the canvas are recorded, in
  source order, as a trace of operations;
* the filesystem is a map from paths to `Except String PILImage`, so that
  `Image.open` either yields a decoded image or raises with a message;
* font loading is modelled by a predicate `fontOK` saying whether
  `ImageFont.truetype` succeeds on a given path; the script's inner
  `try/except` becomes `resolveFonts`;
* the outer `try/except` becomes the case split on the two opens: on a
  decode failure the function prints the error line, leaves the
  filesystem untouched and returns `none`, exactly as lines 61–63 do.
-/

/-- A decoded raster image as the script uses it: only the integer
`width` and `height` attributes are consulted (lines 12–13, 46). -/
structure PILImage where
  width : Nat
  height : Nat
deriving DecidableEq

/-- The fill / background colors named in the script. -/
inductive Color
  | white
  | black
  | gray
  | green
  | red
deriving DecidableEq

/-- A font handle: a truetype face loaded from a path at a point size, or
the built-in default returned by `ImageFont.load_default()`. -/
inductive Font
  | truetype (path : String) (size : Nat)
  | fallback
deriving DecidableEq

/-- One imaging-library call performed on or for the canvas, recorded in
source order: `Image.new`, `draw.text`, `comparison.paste`,
`comparison.save`. -/
inductive Op
  | newImage (mode : String) (width height : Nat) (background : Color)
  | text (x y : Nat) (s : String) (fill : Color) (font : Font)
  | paste (img : PILImage) (x y : Nat)
  | save (path : String)
deriving DecidableEq

/-- The filesystem as the script sees it: `Image.open` on a path either
yields a decoded image or raises an exception carrying a message. -/
def FS : Type := String → Except String PILImage

/-- Line 8: fixed input path of the first screenshot. -/
def validPath : String := "/tmp/playwright-logs/valid-error-validation.png"

/-- Line 9: fixed input path of the second screenshot. -/
def invalidPath : String := "/tmp/playwright-logs/invalid-error-validation.png"

/-- Line 56: fixed output path of the composite. -/
def comparisonPath : String := "/tmp/playwright-logs/error-validation-comparison.png"

/-- Line 23: path of the preferred bold typeface. -/
def boldFontPath : String := "/usr/share/fonts/truetype/dejavu/DejaVuSans-Bold.ttf"

/-- Line 24: path of the preferred regular typeface. -/
def regularFontPath : String := "/usr/share/fonts/truetype/dejavu/DejaVuSans.ttf"

/-- Lines 22–27: both truetype loads are attempted inside a single `try`;
if either raises, the `except` handler replaces BOTH handles with the
default font.  `fontOK p` says whether `ImageFont.truetype(p, _)`
succeeds on path `p`. -/
def resolveFonts (fontOK : String → Bool) : Font × Font :=
  if fontOK boldFontPath && fontOK regularFontPath then
    (Font.truetype boldFontPath 24, Font.truetype regularFontPath 16)
  else
    (Font.fallback, Font.fallback)

/-- The large font handle in scope after lines 22–27. -/
def font_large (fontOK : String → Bool) : Font := (resolveFonts fontOK).1

/-- The small font handle in scope after lines 22–27. -/
def font_small (fontOK : String → Bool) : Font := (resolveFonts fontOK).2

/-- Line 12: canvas width = `max(valid_img.width, invalid_img.width)`. -/
def canvasWidth (widthA widthB : Nat) : Nat := max widthA widthB

/-- Line 13: canvas height =
`valid_img.height + invalid_img.height + 120`. -/
def canvasHeight (heightA heightB : Nat) : Nat := heightA + heightB + 120

/-- Line 36: the initial running vertical offset `y_offset = 80`. -/
def y_offset0 : Nat := 80

/-- Line 43: image A is pasted at vertical position `y_offset + 50`. -/
def pasteA_y : Nat := y_offset0 + 50

/-- Line 46: the running offset is advanced to
`y_offset + 50 + valid_img.height + 20`. -/
def y_offset1 (heightA : Nat) : Nat := y_offset0 + 50 + heightA + 20

/-- Line 53: image B is pasted at vertical position of the advanced
offset plus 50. -/
def pasteB_y (heightA : Nat) : Nat := y_offset1 heightA + 50

/-- `Image.paste` in the library clips the source to the canvas bounds:
row `r` of a source image pasted at vertical offset `y0` is present on a
canvas of height `h` iff its target row `y0 + r` lies inside the
canvas. -/
def pasteRowVisible (h y0 r : Nat) : Bool := decide (y0 + r < h)

/-- The observable outcome of one call of `create_comparison_image`:
the canvas operations performed, the lines printed to standard output,
the filesystem after the call, and the Python return value
(`comparison_path` or `None`). -/
structure Result where
  trace : List Op
  printed : List String
  files : FS
  ret : Option String

/-- Lines 5–63: the whole operation.  The two `Image.open` calls of
lines 8–9 are the case splits; a failure of either reaches the handler of
lines 61–63, which prints the error line and returns `None` with the
filesystem untouched.  On success the trace lists, in order, the calls of
lines 16, 30, 32, 37, 39, 43, 47, 49, 53 and 57, the save writes the
canvas to `comparisonPath`, line 58 prints the success line and line 59
returns the output path. -/
def create_comparison_image (fs : FS) (fontOK : String → Bool) : Result :=
  match fs validPath with
  | .error e =>
      { trace := []
        printed := ["Error creating comparison: " ++ e]
        files := fs
        ret := none }
  | .ok valid_img =>
    match fs invalidPath with
    | .error e =>
        { trace := []
          printed := ["Error creating comparison: " ++ e]
          files := fs
          ret := none }
    | .ok invalid_img =>
      let width := canvasWidth valid_img.width invalid_img.width
      let height := canvasHeight valid_img.height invalid_img.height
      let comparison : PILImage := ⟨width, height⟩
      { trace :=
          [ Op.newImage "RGB" width height Color.white
          , Op.text 20 20 "JSON:API Error Object Structure Validation - UI Demo"
              Color.black (font_large fontOK)
          , Op.text 20 50 "Comprehensive validation of error responses per JSON:API v1.1 specification"
              Color.gray (font_small fontOK)
          , Op.text 20 y_offset0 "✅ VALID Error Response (404 Not Found)"
              Color.green (font_small fontOK)
          , Op.text 20 (y_offset0 + 20) "Shows detailed validation of all error object members"
              Color.gray (font_small fontOK)
          , Op.paste valid_img 0 pasteA_y
          , Op.text 20 (y_offset1 valid_img.height) "❌ INVALID Error Response (String instead of Object)"
              Color.red (font_small fontOK)
          , Op.text 20 (y_offset1 valid_img.height + 20) "Correctly detects and reports error object structure violations"
              Color.gray (font_small fontOK)
          , Op.paste invalid_img 0 (pasteB_y valid_img.height)
          , Op.save comparisonPath ]
        printed := ["Comparison image created: " ++ comparisonPath]
        files := fun p => if p = comparisonPath then .ok comparison else fs p
        ret := some comparisonPath }

/-- Lines 65–66: the entry point calls `create_comparison_image()` once
and discards its return value; what it prints is what the call
printed. -/
def mainPrinted (fs : FS) (fontOK : String → Bool) : List String :=
  (create_comparison_image fs fontOK).printed

/-- A filesystem holding the two screenshots of the end-to-end scenario:
400×300 at the valid path and 400×500 at the invalid path. -/
def demoFS : FS := fun p =>
  if p = validPath then .ok ⟨400, 300⟩
  else if p = invalidPath then .ok ⟨400, 500⟩
  else .error ("No such file or directory: " ++ p)

/-- A filesystem on which every open fails, as when neither screenshot
was captured. -/
def missingFS : FS := fun p =>
  .error ("No such file or directory: " ++ p)

/-- C1: For every two decodable input images of sizes wA×hA and wB×hB,
the composed canvas has width `max wA wB` and height `hA + hB + 120`;
the canvas allocated by line 16 has exactly these dimensions. -/
theorem canvas_dimensions (fs : FS) (fontOK : String → Bool) (a b : PILImage)
    (ha : fs validPath = .ok a) (hb : fs invalidPath = .ok b) :
    (create_comparison_image fs fontOK).trace.head? =
      some (Op.newImage "RGB" (max a.width b.width) (a.height + b.height + 120) Color.white) := by
  simp [create_comparison_image, ha, hb, canvasWidth, canvasHeight]

/-- Witness for C1 at the end-to-end scenario: inputs 400×300 and
400×500 yield a 400×920 canvas. -/
theorem canvas_dimensions_witness :
    (create_comparison_image demoFS (fun _ => true)).trace.head? =
      some (Op.newImage "RGB" 400 920 Color.white) :=
  canvas_dimensions demoFS (fun _ => true) ⟨400, 300⟩ ⟨400, 500⟩ rfl rfl

/-- C6: the vertical paste position of image B is at least the paste
position of image A plus `heightA`, and the running vertical offset
strictly increases through the placement sequence
(header at 80, image A at 130, caption B at 150 + heightA, image B at
200 + heightA): the two image sections never overlap. -/
theorem sections_never_overlap (heightA : Nat) :
    pasteA_y + heightA ≤ pasteB_y heightA ∧
    y_offset0 < pasteA_y ∧
    pasteA_y < y_offset1 heightA ∧
    y_offset1 heightA < pasteB_y heightA := by
  simp [pasteA_y, pasteB_y, y_offset0, y_offset1]
  omega

/-- C7: with the running offset initially 80, image A is pasted at
(0, 130), the offset advances to `80 + 50 + heightA + 20`, and image B is
pasted at (0, advanced offset + 50). -/
theorem placement_follows_algorithm (fs : FS) (fontOK : String → Bool) (a b : PILImage)
    (ha : fs validPath = .ok a) (hb : fs invalidPath = .ok b) :
    y_offset0 = 80 ∧
    Op.paste a 0 pasteA_y ∈ (create_comparison_image fs fontOK).trace ∧
    pasteA_y = 130 ∧
    y_offset1 a.height = y_offset0 + 50 + a.height + 20 ∧
    Op.paste b 0 (pasteB_y a.height) ∈ (create_comparison_image fs fontOK).trace ∧
    pasteB_y a.height = y_offset1 a.height + 50 := by
  refine ⟨rfl, ?_, rfl, rfl, ?_, rfl⟩ <;> simp [create_comparison_image, ha, hb]

/-- Witness for C7 at the end-to-end scenario inputs: image A (400×300)
is pasted at (0, 130) and image B (400×500) at (0, 500). -/
theorem placement_follows_algorithm_witness :
    y_offset0 = 80 ∧
    Op.paste ⟨400, 300⟩ 0 pasteA_y ∈ (create_comparison_image demoFS (fun _ => true)).trace ∧
    pasteA_y = 130 ∧
    y_offset1 300 = y_offset0 + 50 + 300 + 20 ∧
    Op.paste ⟨400, 500⟩ 0 (pasteB_y 300) ∈ (create_comparison_image demoFS (fun _ => true)).trace ∧
    pasteB_y 300 = y_offset1 300 + 50 :=
  placement_follows_algorithm demoFS (fun _ => true) ⟨400, 300⟩ ⟨400, 500⟩ rfl rfl

/-- C2 fails on the code: at the end-to-end inputs 400×300 and 400×500
the canvas is 920 rows tall, but image B is pasted at vertical position
500 with height 500, so the paste extends 80 rows past the canvas
bottom; in particular source row 420 of image B is clipped away and all
rows up to 419 are kept.  The 120-unit overhead does not cover the 200
rows of text/margins placed above image B. -/
theorem imageB_overflows_canvas :
    (create_comparison_image demoFS (fun _ => true)).trace.get? 8 =
      some (Op.paste ⟨400, 500⟩ 0 500) ∧
    500 + 500 = 920 + 80 ∧
    pasteRowVisible 920 500 420 = false ∧
    pasteRowVisible 920 500 419 = true := by
  refine ⟨rfl, rfl, ?_, ?_⟩ <;> decide

/-- C3: for every pair of decodable inputs, image B is pasted at
vertical position `heightA + 200` on a canvas of height
`heightA + heightB + 120`, the pasted region extends exactly 80 rows
below the canvas bottom, and a source row `r` of image B is visible in
the saved composite iff `r + 80 < heightB`: the bottom 80 rows of image
B are absent. -/
theorem imageB_bottom_rows_cropped (fs : FS) (fontOK : String → Bool) (a b : PILImage)
    (ha : fs validPath = .ok a) (hb : fs invalidPath = .ok b) :
    Op.paste b 0 (a.height + 200) ∈ (create_comparison_image fs fontOK).trace ∧
    pasteB_y a.height = a.height + 200 ∧
    pasteB_y a.height + b.height = canvasHeight a.height b.height + 80 ∧
    ∀ r, r < b.height →
      (pasteRowVisible (canvasHeight a.height b.height) (pasteB_y a.height) r = true ↔
        r + 80 < b.height) := by
  have h200 : pasteB_y a.height = a.height + 200 := by
    simp [pasteB_y, y_offset1, y_offset0]
    omega
  refine ⟨?_, h200, ?_, ?_⟩
  · rw [← h200]
    simp [create_comparison_image, ha, hb]
  · simp [h200, canvasHeight]
    omega
  · intro r hr
    simp [pasteRowVisible, h200, canvasHeight]
    omega

/-- Witness for C3 at the end-to-end inputs: image B (400×500) is pasted
at y = 500 on the 920-row canvas, overshooting by 80 rows. -/
theorem imageB_bottom_rows_cropped_witness :
    Op.paste ⟨400, 500⟩ 0 (300 + 200) ∈ (create_comparison_image demoFS (fun _ => true)).trace ∧
    pasteB_y 300 = 300 + 200 ∧
    pasteB_y 300 + 500 = canvasHeight 300 500 + 80 ∧
    ∀ r, r < 500 →
      (pasteRowVisible (canvasHeight 300 500) (pasteB_y 300) r = true ↔ r + 80 < 500) :=
  imageB_bottom_rows_cropped demoFS (fun _ => true) ⟨400, 300⟩ ⟨400, 500⟩ rfl rfl

/-- C4: if either input image cannot be opened or decoded, the operation
aborts as a single failure class: it writes nothing (the filesystem is
unchanged, so no output file is produced), prints
"Error creating comparison: <message>", and returns `none` to the caller
instead of raising. -/
theorem decode_failure_no_output (fs : FS) (fontOK : String → Bool)
    (h : (∃ e, fs validPath = .error e) ∨ (∃ e, fs invalidPath = .error e)) :
    (create_comparison_image fs fontOK).ret = none ∧
    (create_comparison_image fs fontOK).files = fs ∧
    ∃ m, (create_comparison_image fs fontOK).printed = ["Error creating comparison: " ++ m] := by
  cases hv : fs validPath with
  | error e => exact ⟨by simp [create_comparison_image, hv], by simp [create_comparison_image, hv],
      e, by simp [create_comparison_image, hv]⟩
  | ok a =>
    cases hi : fs invalidPath with
    | error e => exact ⟨by simp [create_comparison_image, hv, hi],
        by simp [create_comparison_image, hv, hi],
        e, by simp [create_comparison_image, hv, hi]⟩
    | ok b =>
      rcases h with ⟨e, he⟩ | ⟨e, he⟩
      · rw [hv] at he
        cases he
      · rw [hi] at he
        cases he

/-- Witness for C4: with both screenshots missing, the call returns
`none`, leaves the filesystem unchanged and prints only the error
line. -/
theorem decode_failure_no_output_witness :
    (create_comparison_image missingFS (fun _ => true)).ret = none ∧
    (create_comparison_image missingFS (fun _ => true)).files = missingFS ∧
    ∃ m, (create_comparison_image missingFS (fun _ => true)).printed =
      ["Error creating comparison: " ++ m] :=
  decode_failure_no_output missingFS (fun _ => true)
    (Or.inl ⟨"No such file or directory: " ++ validPath, rfl⟩)

/-- C5: font-load failure never reaches the caller.  Whatever the
outcome `fontOK` of loading the two preferred font files, given
decodable input images the composition succeeds: it returns the output
path and writes the composed canvas to it.  Moreover, whenever either
truetype load fails, both handles are silently replaced by the built-in
default typeface. -/
theorem font_fallback_composition_succeeds (fs : FS) (fontOK : String → Bool)
    (a b : PILImage)
    (ha : fs validPath = .ok a) (hb : fs invalidPath = .ok b) :
    (create_comparison_image fs fontOK).ret = some comparisonPath ∧
    (create_comparison_image fs fontOK).files comparisonPath =
      .ok ⟨canvasWidth a.width b.width, canvasHeight a.height b.height⟩ ∧
    ((fontOK boldFontPath && fontOK regularFontPath) = false →
      font_large fontOK = Font.fallback ∧ font_small fontOK = Font.fallback) := by
  refine ⟨by simp [create_comparison_image, ha, hb], by simp [create_comparison_image, ha, hb], ?_⟩
  intro hfail
  constructor <;> simp [font_large, font_small, resolveFonts, hfail]

/-- Witness for C5: with every font load failing, the composition over
the end-to-end inputs still returns the output path, writes the 400×920
canvas, and uses the default typeface for both handles. -/
theorem font_fallback_composition_succeeds_witness :
    (create_comparison_image demoFS (fun _ => false)).ret = some comparisonPath ∧
    (create_comparison_image demoFS (fun _ => false)).files comparisonPath =
      .ok ⟨canvasWidth 400 400, canvasHeight 300 500⟩ ∧
    (((fun _ => false : String → Bool) boldFontPath &&
        (fun _ => false : String → Bool) regularFontPath) = false →
      font_large (fun _ => false) = Font.fallback ∧
      font_small (fun _ => false) = Font.fallback) :=
  font_fallback_composition_succeeds demoFS (fun _ => false) ⟨400, 300⟩ ⟨400, 500⟩ rfl rfl

/-- C8: on success (both inputs decoded), the operation returns the
output path, prints exactly "Comparison image created: <output path>",
and an image is present at the output path in the filesystem after the
call. -/
theorem success_returns_path (fs : FS) (fontOK : String → Bool) (a b : PILImage)
    (ha : fs validPath = .ok a) (hb : fs invalidPath = .ok b) :
    (create_comparison_image fs fontOK).ret = some comparisonPath ∧
    (create_comparison_image fs fontOK).printed =
      ["Comparison image created: " ++ comparisonPath] ∧
    ∃ img, (create_comparison_image fs fontOK).files comparisonPath = .ok img := by
  refine ⟨?_, ?_, ⟨canvasWidth a.width b.width, canvasHeight a.height b.height⟩, ?_⟩ <;>
    simp [create_comparison_image, ha, hb]

/-- Witness for C8 at the end-to-end scenario: out.png exists after the
call and the printed message names it. -/
theorem success_returns_path_witness :
    (create_comparison_image demoFS (fun _ => true)).ret = some comparisonPath ∧
    (create_comparison_image demoFS (fun _ => true)).printed =
      ["Comparison image created: " ++ comparisonPath] ∧
    ∃ img, (create_comparison_image demoFS (fun _ => true)).files comparisonPath = .ok img :=
  success_returns_path demoFS (fun _ => true) ⟨400, 300⟩ ⟨400, 500⟩ rfl rfl

/-- C9: the entry point performs exactly one composition (by definition
of `mainPrinted`) and, for every filesystem and every font-load outcome,
prints exactly one line, which is either the success line or an error
line; the modelled call is total, so no exception escapes to script
exit, and only the printed text distinguishes success from failure. -/
theorem entry_point_prints_one_line (fs : FS) (fontOK : String → Bool) :
    (mainPrinted fs fontOK).length = 1 ∧
    (mainPrinted fs fontOK = ["Comparison image created: " ++ comparisonPath] ∨
      ∃ m, mainPrinted fs fontOK = ["Error creating comparison: " ++ m]) := by
  cases hv : fs validPath with
  | error e =>
    exact ⟨by simp [mainPrinted, create_comparison_image, hv],
      Or.inr ⟨e, by simp [mainPrinted, create_comparison_image, hv]⟩⟩
  | ok a =>
    cases hi : fs invalidPath with
    | error e =>
      exact ⟨by simp [mainPrinted, create_comparison_image, hv, hi],
        Or.inr ⟨e, by simp [mainPrinted, create_comparison_image, hv, hi]⟩⟩
    | ok b =>
      exact ⟨by simp [mainPrinted, create_comparison_image, hv, hi],
        Or.inl (by simp [mainPrinted, create_comparison_image, hv, hi])⟩

/-- C10: the title line is drawn at (20, 20) in black with the large
font, and the subtitle line at (20, 50) in gray with the small font, as
the first two text operations on the canvas. -/
theorem header_text_placement (fs : FS) (fontOK : String → Bool) (a b : PILImage)
    (ha : fs validPath = .ok a) (hb : fs invalidPath = .ok b) :
    (create_comparison_image fs fontOK).trace.get? 1 =
      some (Op.text 20 20 "JSON:API Error Object Structure Validation - UI Demo"
        Color.black (font_large fontOK)) ∧
    (create_comparison_image fs fontOK).trace.get? 2 =
      some (Op.text 20 50 "Comprehensive validation of error responses per JSON:API v1.1 specification"
        Color.gray (font_small fontOK)) := by
  constructor <;> simp [create_comparison_image, ha, hb]

/-- Witness for C10 at the end-to-end inputs with both font loads
succeeding. -/
theorem header_text_placement_witness :
    (create_comparison_image demoFS (fun _ => true)).trace.get? 1 =
      some (Op.text 20 20 "JSON:API Error Object Structure Validation - UI Demo"
        Color.black (font_large (fun _ => true))) ∧
    (create_comparison_image demoFS (fun _ => true)).trace.get? 2 =
      some (Op.text 20 50 "Comprehensive validation of error responses per JSON:API v1.1 specification"
        Color.gray (font_small (fun _ => true))) :=
  header_text_placement demoFS (fun _ => true) ⟨400, 300⟩ ⟨400, 500⟩ rfl rfl
